import Mathlib

/-!
Verification development for the geometric intersection and shading-frame
subsystem of the pbrt-rust renderer (quadric shapes Sphere and Paraboloid,
error-bounded arithmetic, surface interactions).

Modelling conventions.  Machine floating point does not translate to a
shallow embedding, so the scalar type Float of the source is embedded as
the exact rationals and every machine-epsilon term of the error-bounded
arithmetic is zero (the exact-arithmetic idealization): an EFloat keeps
the (value, low, high) triple of the source, intervals are propagated by
exact interval arithmetic, and all rounding terms vanish.  The
transcendental functions of the float type (sqrt, atan2, acos, sin) and
the constant pi have no exact rational counterpart; they are abstracted
into a RealOps record that every routine takes as an explicit argument,
so theorems quantify over the interpretation of those functions and
concrete scenarios instantiate them at the rational values the real
functions take at the points actually used.

The shape code is translated from src/src/shapes/sphere.rs,
src/src/shapes/paraboloid.rs and
src/src/core/geometry/surface_interaction.rs.  Helper code of the
repository that is not under src (vector algebra, EFloat, quadratic,
Transform, Ray, clamp, shape_data) is modelled from the spec; each such
definition carries a doc comment saying so.
-/

namespace Pbrt

/-- Scalar type of the source (Rust Float = f32/f64), embedded as the exact
rationals. -/
abbrev Float : Type := ℚ

/-- Modelled from the spec: the machine epsilon of the float type.  In the
exact-arithmetic idealization it is zero, so every error term built from it
vanishes. -/
def machineEpsilon : Float := 0

/-- Modelled from the spec: the conservative error factor gamma(n) =
(n * eps) / (1 - n * eps) used for positional error bounds. -/
def gamma (n : Float) : Float := n * machineEpsilon / (1 - n * machineEpsilon)

/-- Modelled from the spec: the transcendental float functions (sqrt, atan2,
acos, sin) and the constant pi, which have no exact rational counterpart.
Routines take an interpretation of them as an argument. -/
structure RealOps where
  sqrt : Float → Float
  atan2 : Float → Float → Float
  acos : Float → Float
  sin : Float → Float
  pi : Float

/-- Modelled from the spec: TWO_PI, the full angle in radians. -/
def twoPi (ops : RealOps) : Float := 2 * ops.pi

/-- Modelled from the spec: degree-to-radian conversion used on phi_max. -/
def toRadians (ops : RealOps) (deg : Float) : Float := deg * ops.pi / 180

/-- Modelled from the spec: clamp a value to the closed range [low, high]. -/
def clamp (x low high : Float) : Float :=
  if x < low then low else if x > high then high else x

/-- Modelled from the spec: a 3-D vector over Float. -/
structure Vector3 where
  x : Float
  y : Float
  z : Float
deriving DecidableEq

/-- Modelled from the spec: a 3-D point over Float. -/
structure Point3 where
  x : Float
  y : Float
  z : Float
deriving DecidableEq

/-- Modelled from the spec: a 3-D surface normal over Float. -/
structure Normal3 where
  x : Float
  y : Float
  z : Float
deriving DecidableEq

/-- Modelled from the spec: 2-D point used for parametric (u, v) coordinates. -/
structure Point2 where
  x : Float
  y : Float
deriving DecidableEq

def vector3 (x y z : Float) : Vector3 := ⟨x, y, z⟩

def point3 (x y z : Float) : Point3 := ⟨x, y, z⟩

def normal3 (x y z : Float) : Normal3 := ⟨x, y, z⟩

def point2 (x y : Float) : Point2 := ⟨x, y⟩

namespace Vector3

def add (a b : Vector3) : Vector3 := ⟨a.x + b.x, a.y + b.y, a.z + b.z⟩

def neg (a : Vector3) : Vector3 := ⟨-a.x, -a.y, -a.z⟩

/-- Scalar multiple of a vector. -/
def smul (f : Float) (a : Vector3) : Vector3 := ⟨f * a.x, f * a.y, f * a.z⟩

def dot (a b : Vector3) : Float := a.x * b.x + a.y * b.y + a.z * b.z

def cross (a b : Vector3) : Vector3 :=
  ⟨a.y * b.z - a.z * b.y, a.z * b.x - a.x * b.z, a.x * b.y - a.y * b.x⟩

def lengthSquared (a : Vector3) : Float := a.x * a.x + a.y * a.y + a.z * a.z

def length (ops : RealOps) (a : Vector3) : Float := ops.sqrt a.lengthSquared

/-- Unit vector in the direction of a (multiplies by one over the length, as
the source does). -/
def normalize (ops : RealOps) (a : Vector3) : Vector3 :=
  smul (1 / a.length ops) a

def abs (a : Vector3) : Vector3 := ⟨|a.x|, |a.y|, |a.z|⟩

end Vector3

namespace Point3

/-- Vector from the origin to the point. -/
def toVector (p : Point3) : Vector3 := ⟨p.x, p.y, p.z⟩

/-- Translate a point by a vector. -/
def addV (p : Point3) (v : Vector3) : Point3 := ⟨p.x + v.x, p.y + v.y, p.z + v.z⟩

/-- Scale every coordinate of a point (the p_hit *= s refinement step). -/
def smul (f : Float) (p : Point3) : Point3 := ⟨f * p.x, f * p.y, f * p.z⟩

def distance (ops : RealOps) (p q : Point3) : Float :=
  ops.sqrt ((p.x - q.x) * (p.x - q.x) + (p.y - q.y) * (p.y - q.y) +
    (p.z - q.z) * (p.z - q.z))

end Point3

namespace Normal3

def ofVector (v : Vector3) : Normal3 := ⟨v.x, v.y, v.z⟩

def toVector (n : Normal3) : Vector3 := ⟨n.x, n.y, n.z⟩

def neg (n : Normal3) : Normal3 := ⟨-n.x, -n.y, -n.z⟩

def smul (f : Float) (n : Normal3) : Normal3 := ⟨f * n.x, f * n.y, f * n.z⟩

def dotn (a b : Normal3) : Float := a.x * b.x + a.y * b.y + a.z * b.z

def dotv (a : Normal3) (b : Vector3) : Float := a.x * b.x + a.y * b.y + a.z * b.z

def lengthSquared (n : Normal3) : Float := n.x * n.x + n.y * n.y + n.z * n.z

def normalize (ops : RealOps) (n : Normal3) : Normal3 :=
  smul (1 / ops.sqrt n.lengthSquared) n

/-- Modelled from the spec: face-forward correction, flipping the sign of a
normal so it lies in the same hemisphere as the reference vector. -/
def faceForward (n : Normal3) (v : Vector3) : Normal3 :=
  if n.dotv v < 0 then n.neg else n

def addn (a b : Normal3) : Normal3 := ⟨a.x + b.x, a.y + b.y, a.z + b.z⟩

end Normal3

/-- Modelled from the spec: error-bounded scalar, a float value together with
a conservative interval [low, high] bracketing the exact result. -/
structure EFloat where
  v : Float
  low : Float
  high : Float
deriving DecidableEq

/-- Modelled from the spec: build an error-bounded scalar from a value and an
absolute error. -/
def efloat (v err : Float) : EFloat := ⟨v, v - err, v + err⟩

namespace EFloat

/-- Modelled from the spec: a raw float carries zero error. -/
def ofFloat (v : Float) : EFloat := efloat v 0

def upperBound (a : EFloat) : Float := a.high

def lowerBound (a : EFloat) : Float := a.low

/-- Modelled from the spec: the absolute error radius of the interval. -/
def getAbsoluteError (a : EFloat) : Float := max (a.high - a.v) (a.v - a.low)

/-- Modelled from the spec: interval addition (the machine-epsilon widening of
the source is zero in the exact-arithmetic idealization). -/
def add (a b : EFloat) : EFloat := ⟨a.v + b.v, a.low + b.low, a.high + b.high⟩

def sub (a b : EFloat) : EFloat := ⟨a.v - b.v, a.low - b.high, a.high - b.low⟩

def negE (a : EFloat) : EFloat := ⟨-a.v, -a.high, -a.low⟩

/-- Modelled from the spec: interval multiplication takes the extrema of the
four bound products. -/
def mul (a b : EFloat) : EFloat :=
  ⟨a.v * b.v,
    min (min (a.low * b.low) (a.low * b.high)) (min (a.high * b.low) (a.high * b.high)),
    max (max (a.low * b.low) (a.low * b.high)) (max (a.high * b.low) (a.high * b.high))⟩

/-- Modelled from the spec: interval division takes the extrema of the four
bound quotients.  In the exact-arithmetic idealization every interval is
degenerate, so the divisor-straddles-zero case of the source (which widens
the bounds to infinity, inexpressible over the rationals) cannot arise. -/
def div (a b : EFloat) : EFloat :=
  ⟨a.v / b.v,
    min (min (a.low / b.low) (a.low / b.high)) (min (a.high / b.low) (a.high / b.high)),
    max (max (a.low / b.low) (a.low / b.high)) (max (a.high / b.low) (a.high / b.high))⟩

/-- Scalar multiple of an error-bounded scalar. -/
def smul (f : Float) (a : EFloat) : EFloat :=
  (ofFloat f).mul a

end EFloat

/-- Modelled from the spec: numerically stable quadratic solver over
error-bounded scalars.  The discriminant is computed on the plain values in
extended precision; a negative discriminant yields no roots; the root picked
via the sign of b avoids cancellation; the two roots are returned ordered by
value. -/
def quadratic (ops : RealOps) (a b c : EFloat) : Option (EFloat × EFloat) :=
  let discrim : Float := b.v * b.v - 4 * a.v * c.v
  if discrim < 0 then none
  else
    let rootDiscrim := ops.sqrt discrim
    let floatRootDiscrim := efloat rootDiscrim (machineEpsilon * rootDiscrim)
    let q : EFloat :=
      if b.v < 0 then EFloat.smul (-(1:Float)/2) (b.sub floatRootDiscrim)
      else EFloat.smul (-(1:Float)/2) (b.add floatRootDiscrim)
    let t0 := q.div a
    let t1 := c.div q
    if t0.v > t1.v then some (t1, t0) else some (t0, t1)

/-- Modelled from the spec: a ray with origin, direction, a mutable maximum
parametric distance t_max and a time. -/
structure Ray where
  o : Point3
  d : Vector3
  t_max : Float
  time : Float

/-- Evaluate the ray at parameter t. -/
def Ray.at (r : Ray) (t : Float) : Point3 := r.o.addV (Vector3.smul t r.d)

/-- Modelled from the spec: an affine transform between object and world
space, embedded abstractly by the maps it applies to points, vectors and
normals, together with the cached handedness-swap flag. -/
structure Transform where
  onPoint : Point3 → Point3
  onVector : Vector3 → Vector3
  onNormal : Normal3 → Normal3
  swapsHandedness : Bool

/-- Modelled from the spec: the identity transform. -/
def Transform.id : Transform := ⟨fun p => p, fun v => v, fun n => n, false⟩

/-- Modelled from the spec: transform a ray and return conservative error
bounds on the transformed origin and direction.  In the exact-arithmetic
idealization the transform introduces no rounding error, so both error
vectors are zero. -/
def Transform.transformRayWithError (t : Transform) (r : Ray) :
    Ray × Vector3 × Vector3 :=
  (⟨t.onPoint r.o, t.onVector r.d, r.t_max, r.time⟩, ⟨0, 0, 0⟩, ⟨0, 0, 0⟩)

/-- Modelled from the spec: the shared immutable per-shape record holding the
object-to-world transform, optionally its inverse, the user-requested
orientation reversal flag and the cached handedness-swap flag of the
transform. -/
structure ShapeData where
  objectToWorld : Transform
  worldToObject : Option Transform
  reverseOrientation : Bool
  transformSwapsHandedness : Bool

/-- Modelled from the spec: build the shared shape record; the
handedness-swap flag is derived from the object-to-world transform. -/
def shape_data (objectToWorld : Transform) (worldToObject : Option Transform)
    (reverseOrientation : Bool) : ShapeData :=
  ⟨objectToWorld, worldToObject, reverseOrientation, objectToWorld.swapsHandedness⟩

/-- Modelled from the spec: the common interaction data carried by a hit
(point, time, positional error, outgoing direction, geometric normal). -/
structure Hit where
  p : Point3
  time : Float
  pError : Vector3
  wo : Vector3
  n : Normal3

/-- Modelled from the spec: build the common interaction data. -/
def hit (p : Point3) (time : Float) (pError : Vector3) (wo : Vector3)
    (n : Normal3) : Hit :=
  ⟨p, time, pError, wo, n⟩

/-- Shading geometry used for perturbed values for bump mapping
(src/src/core/geometry/surface_interaction.rs). -/
structure Shading where
  n : Normal3
  dpdu : Vector3
  dpdv : Vector3
  dndu : Normal3
  dndv : Normal3

/-- Create a new shading record
(src/src/core/geometry/surface_interaction.rs, fn shading). -/
def shading (n : Normal3) (dpdu dpdv : Vector3) (dndu dndv : Normal3) : Shading :=
  ⟨n, dpdu, dpdv, dndu, dndv⟩

/-- SurfaceInteraction of src/src/core/geometry/surface_interaction.rs.  The
shape back-reference is embedded by the shared ShapeData record the source
reaches through get_data(); the out-of-scope slots (bsdf, bssrdf, primitive
back-pointer) are not modelled. -/
structure SurfaceInteraction where
  hit : Hit
  uv : Point2
  dpdu : Vector3
  dpdv : Vector3
  dndu : Normal3
  dndv : Normal3
  shading : Shading
  shape : Option ShapeData

/-- Create a new surface interaction
(src/src/core/geometry/surface_interaction.rs, fn surface_interaction,
lines 59..94): the geometric normal is the normalized cross product of dpdu
and dpdv, negated exactly when reverse_orientation XOR
transform_swaps_handedness holds for the attached shape, and the initial
shading normal equals it. -/
def surface_interaction (ops : RealOps) (p : Point3) (pError : Vector3)
    (uv : Point2) (wo : Vector3) (dpdu dpdv : Vector3) (dndu dndv : Normal3)
    (time : Float) (shape : Option ShapeData) : SurfaceInteraction :=
  let n0 := Normal3.ofVector ((dpdu.cross dpdv).normalize ops)
  let n :=
    match shape with
    | some s =>
        if xor s.reverseOrientation s.transformSwapsHandedness then n0.smul (-1) else n0
    | none => n0
  { hit := hit p time pError wo n
    uv := uv
    dpdu := dpdu
    dpdv := dpdv
    dndu := dndu
    dndv := dndv
    shape := shape
    shading := shading n dpdu dpdv dndu dndv }

/-- Update of the shading geometry
(src/src/core/geometry/surface_interaction.rs, fn update_shading_geometry,
lines 103..128), transcribed exactly: the tentative shading normal is the
normalized cross product of the new dpdu and dpdv; only when the shape is
present and reverse_orientation XOR transform_swaps_handedness holds does the
source overwrite it with the negated stored shading normal and apply the
face-forward correction (to the hit normal when orientation_is_authoritative,
to the shading normal otherwise). -/
def SurfaceInteraction.update_shading_geometry (si : SurfaceInteraction)
    (ops : RealOps) (dpdu dpdv : Vector3) (dndu dndv : Normal3)
    (orientationIsAuthoritative : Bool) : Normal3 × Shading :=
  let hitN := si.hit.n
  let shadingN := (Normal3.ofVector (dpdu.cross dpdv)).normalize ops
  let res : Normal3 × Normal3 :=
    match si.shape with
    | some s =>
        if xor s.reverseOrientation s.transformSwapsHandedness then
          let shadingN2 := si.shading.n.smul (-1)
          if orientationIsAuthoritative then
            (hitN.faceForward shadingN2.toVector, shadingN2)
          else
            (hitN, shadingN2.faceForward hitN.toVector)
        else (hitN, shadingN)
    | none => (hitN, shadingN)
  (res.1, Pbrt.shading res.2 dpdu dpdv dndu dndv)

/-- Modelled from the spec: transform a surface interaction into world space,
applying the transform to the position, the derivatives and the normals and
preserving the error bounds. -/
def Transform.transformSurfaceInteraction (t : Transform)
    (si : SurfaceInteraction) : SurfaceInteraction :=
  { si with
    hit := { si.hit with p := t.onPoint si.hit.p, n := t.onNormal si.hit.n }
    dpdu := t.onVector si.dpdu
    dpdv := t.onVector si.dpdv
    dndu := Normal3.ofVector (t.onVector si.dndu.toVector)
    dndv := Normal3.ofVector (t.onVector si.dndv.toVector)
    shading :=
      { si.shading with
        n := t.onNormal si.shading.n
        dpdu := t.onVector si.shading.dpdu
        dpdv := t.onVector si.shading.dpdv
        dndu := Normal3.ofVector (t.onVector si.shading.dndu.toVector)
        dndv := Normal3.ofVector (t.onVector si.shading.dndv.toVector) } }

/-- Modelled from the spec: an intersection result pairs the hit distance t
with the world-space surface interaction. -/
structure Intersection where
  t : Float
  isect : SurfaceInteraction

/-- Modelled from the spec: build an intersection result. -/
def intersection (t : Float) (isect : SurfaceInteraction) : Intersection :=
  ⟨t, isect⟩

/-- Wrap of the azimuth angle: atan2 of the in-plane coordinates, with two pi
added when negative (src/src/shapes/sphere.rs lines 135..138 and
src/src/shapes/paraboloid.rs lines 126..129, identical text in both). -/
def phiOf (ops : RealOps) (p : Point3) : Float :=
  let phi := ops.atan2 p.y p.x
  if phi < 0 then phi + twoPi ops else phi

/-- Sphere of src/src/shapes/sphere.rs. -/
structure Sphere where
  data : ShapeData
  radius : Float
  z_min : Float
  z_max : Float
  theta_min : Float
  theta_max : Float
  phi_max : Float

/-- Constructor fn sphere of src/src/shapes/sphere.rs lines 46..70: the z
bounds are ordered and clamped to [-radius, radius], the theta bounds derived
by acos of the clamped height ratio, and phi_max clamped to [0, 360] degrees
then converted to radians.  The worldToObject transform is stored through the
optional slot of the shared shape record. -/
def sphere (ops : RealOps) (objectToWorld worldToObject : Transform)
    (reverseOrientation : Bool) (radius z_min z_max phi_max : Float) : Sphere :=
  let zmin := clamp (min z_min z_max) (-radius) radius
  let zmax := clamp (max z_min z_max) (-radius) radius
  { radius := radius
    z_min := zmin
    z_max := zmax
    theta_min := ops.acos (clamp (zmin / radius) (-1) 1)
    theta_max := ops.acos (clamp (zmax / radius) (-1) 1)
    phi_max := toRadians ops (clamp phi_max 0 360)
    data := shape_data objectToWorld (some worldToObject) reverseOrientation }

namespace Sphere

/-- The worldToObject transform read by the intersection routines. -/
def worldToObjectT (s : Sphere) : Transform :=
  s.data.worldToObject.getD Transform.id

/-- Quadratic sphere coefficients, src/src/shapes/sphere.rs lines 98..108
(identical text at lines 263..273): the object-space ray coordinates become
error-bounded scalars carrying the transform error bounds, and
a t^2 + b t + c = 0 is formed with a = d.d, b = 2 d.o,
c = o.o - radius^2, all in EFloat arithmetic. -/
def coefficients (s : Sphere) (ray : Ray) (oErr dErr : Vector3) :
    EFloat × EFloat × EFloat :=
  let ox := efloat ray.o.x oErr.x
  let oy := efloat ray.o.y oErr.y
  let oz := efloat ray.o.z oErr.z
  let dx := efloat ray.d.x dErr.x
  let dy := efloat ray.d.y dErr.y
  let dz := efloat ray.d.z dErr.z
  let a := ((dx.mul dx).add (dy.mul dy)).add (dz.mul dz)
  let b := EFloat.smul 2 (((dx.mul ox).add (dy.mul oy)).add (dz.mul oz))
  let c := (((ox.mul ox).add (oy.mul oy)).add (oz.mul oz)).sub
    ((EFloat.ofFloat s.radius).mul (EFloat.ofFloat s.radius))
  (a, b, c)

/-- Reprojection of a candidate hit onto the exact sphere radius,
src/src/shapes/sphere.rs lines 126..129: the point at parameter t is scaled
by radius over its distance to the origin. -/
def reprojected (ops : RealOps) (s : Sphere) (ray : Ray) (t : Float) : Point3 :=
  (ray.at t).smul (s.radius / ((ray.at t).distance ops (point3 0 0 0)))

/-- Degenerate-azimuth nudge, src/src/shapes/sphere.rs lines 131..133: when
both in-plane coordinates vanish the x coordinate is set to 1e-5 times the
radius before phi is computed. -/
def nudge (s : Sphere) (p : Point3) : Point3 :=
  if p.x = 0 ∧ p.y = 0 then { p with x := (1 / 100000) * s.radius } else p

/-- The candidate hit point fed to the phi computation: reprojection followed
by the degenerate-azimuth nudge (src/src/shapes/sphere.rs lines 126..133). -/
def refinedHitPoint (ops : RealOps) (s : Sphere) (ray : Ray) (t : Float) :
    Point3 :=
  s.nudge (reprojected ops s ray t)

/-- Differential geometry and interaction record for an accepted sphere hit,
src/src/shapes/sphere.rs lines 176..246: parametric (u, v), first and second
partial derivatives, the Weingarten terms dndu and dndv from the fundamental
forms, the reprojection-based error bound gamma(5) |p|, the object-space
surface interaction and its transform to world space. -/
def buildIntersection (ops : RealOps) (s : Sphere) (ray : Ray)
    (tShapeHit : EFloat) (pHit : Point3) (phi : Float) : Intersection :=
  let u := phi / s.phi_max
  let theta := ops.acos (clamp (pHit.z / s.radius) (-1) 1)
  let v := (theta - s.theta_min) / (s.theta_max - s.theta_min)
  let zRadius := ops.sqrt (pHit.x * pHit.x + pHit.y * pHit.y)
  let invZRadius := 1 / zRadius
  let cosPhi := pHit.x * invZRadius
  let sinPhi := pHit.y * invZRadius
  let dpdu := vector3 (-s.phi_max * pHit.y) (s.phi_max * pHit.x) 0
  let dpdv := Vector3.smul (s.theta_max - s.theta_min)
    (vector3 (pHit.z * cosPhi) (pHit.z * sinPhi) (-s.radius * ops.sin theta))
  let d2pduu := Vector3.smul (-s.phi_max * s.phi_max) (vector3 pHit.x pHit.y 0)
  let d2pduv := Vector3.smul ((s.theta_max - s.theta_min) * pHit.z * s.phi_max)
    (vector3 (-sinPhi) cosPhi 0)
  let d2pdvv := Vector3.smul
    (-(s.theta_max - s.theta_min) * (s.theta_max - s.theta_min))
    (vector3 pHit.x pHit.y pHit.z)
  let n := (dpdu.cross dpdv).normalize ops
  let e1 := dpdu.dot dpdu
  let f1 := dpdu.dot dpdv
  let g1 := dpdv.dot dpdv
  let e2 := n.dot d2pduu
  let f2 := n.dot d2pduv
  let g2 := n.dot d2pdvv
  let invEGF1 := 1 / (e1 * g1 - f1 * f1)
  let dndu := Normal3.ofVector
    ((Vector3.smul ((f2 * f1 - e2 * g1) * invEGF1) dpdu).add
      (Vector3.smul ((e2 * f1 - f2 * e1) * invEGF1) dpdv))
  let dndv := Normal3.ofVector
    ((Vector3.smul ((g2 * f1 - f2 * g1) * invEGF1) dpdu).add
      (Vector3.smul ((f2 * f1 - g2 * e1) * invEGF1) dpdv))
  let pError := Vector3.smul (gamma 5) pHit.toVector.abs
  let si := surface_interaction ops pHit pError (point2 u v) ray.d.neg dpdu
    dpdv dndu dndv ray.time (some s.data)
  let isect := s.data.objectToWorld.transformSurfaceInteraction si
  intersection tShapeHit.v isect

/-- Ordered error-bounded roots of the sphere quadratic for a world-space
ray: the ray transform, the coefficient computation and the quadratic solve
shared verbatim by Sphere::intersect and Sphere::intersect_p
(src/src/shapes/sphere.rs lines 93..111 and 258..276). -/
def roots (ops : RealOps) (s : Sphere) (r : Ray) : Option (EFloat × EFloat) :=
  let rt := s.worldToObjectT.transformRayWithError r
  let cf := s.coefficients rt.1 rt.2.1 rt.2.2
  quadratic ops cf.1 cf.2.1 cf.2.2

/-- Sphere::intersect of src/src/shapes/sphere.rs lines 91..250: transform
the ray to object space, solve the quadratic, prune the roots against t_max
and zero, pick the nearer valid root, test the clipping parameters, retry
once with the farther root, and build the full intersection record.  The
early returns of the source are encoded by the nested option and if
structure. -/
def intersect (ops : RealOps) (s : Sphere) (r : Ray) : Option Intersection :=
  let ray := (s.worldToObjectT.transformRayWithError r).1
  match roots ops s r with
  | none => none
  | some (t0, t1) =>
    if t0.upperBound > ray.t_max ∨ t1.lowerBound ≤ 0 then none
    else
      let sel : Option EFloat :=
        if t0.lowerBound ≤ 0 then
          if t1.upperBound > ray.t_max then none else some t1
        else some t0
      match sel with
      | none => none
      | some tShapeHit =>
        let pHit := refinedHitPoint ops s ray tShapeHit.v
        let phi := phiOf ops pHit
        if (s.z_min > -s.radius ∧ pHit.z < s.z_min) ∨
            (s.z_max < s.radius ∧ pHit.z > s.z_max) ∨ phi > s.phi_max then
          if tShapeHit.v = t1.v then none
          else if t1.upperBound > ray.t_max then none
          else
            let pHit2 := refinedHitPoint ops s ray t1.v
            let phi2 := phiOf ops pHit2
            if (s.z_min > -s.radius ∧ pHit2.z < s.z_min) ∨
                (s.z_max < s.radius ∧ pHit2.z > s.z_max) ∨ phi2 > s.phi_max then
              none
            else some (buildIntersection ops s ray t1 pHit2 phi2)
        else some (buildIntersection ops s ray tShapeHit pHit phi)

/-- Sphere::intersect_p of src/src/shapes/sphere.rs lines 256..345: the
boolean-only repetition of the same transform, quadratic solve, root pruning,
root selection, clipping test and farther-root retry, with true in place of
the constructed intersection. -/
def intersect_p (ops : RealOps) (s : Sphere) (r : Ray) : Bool :=
  let ray := (s.worldToObjectT.transformRayWithError r).1
  match roots ops s r with
  | none => false
  | some (t0, t1) =>
    if t0.upperBound > ray.t_max ∨ t1.lowerBound ≤ 0 then false
    else
      let sel : Option EFloat :=
        if t0.lowerBound ≤ 0 then
          if t1.upperBound > ray.t_max then none else some t1
        else some t0
      match sel with
      | none => false
      | some tShapeHit =>
        let pHit := refinedHitPoint ops s ray tShapeHit.v
        let phi := phiOf ops pHit
        if (s.z_min > -s.radius ∧ pHit.z < s.z_min) ∨
            (s.z_max < s.radius ∧ pHit.z > s.z_max) ∨ phi > s.phi_max then
          if tShapeHit.v = t1.v then false
          else if t1.upperBound > ray.t_max then false
          else
            let pHit2 := refinedHitPoint ops s ray t1.v
            let phi2 := phiOf ops pHit2
            if (s.z_min > -s.radius ∧ pHit2.z < s.z_min) ∨
                (s.z_max < s.radius ∧ pHit2.z > s.z_max) ∨ phi2 > s.phi_max then
              false
            else true
        else true

/-- Sphere::area of src/src/shapes/sphere.rs lines 347..350. -/
def area (s : Sphere) : Float := s.phi_max * s.radius * (s.z_max - s.z_min)

end Sphere

/-- Paraboloid of src/src/shapes/paraboloid.rs. -/
structure Paraboloid where
  data : ShapeData
  radius : Float
  z_min : Float
  z_max : Float
  phi_max : Float

/-- Constructor fn paraboloid of src/src/shapes/paraboloid.rs lines 39..61:
the z bounds are ordered and clamped to [-radius, radius], phi_max clamped to
[0, 360] degrees then converted to radians, and the worldToObject transform
stored as some worldToObject in the shared shape record. -/
def paraboloid (ops : RealOps) (objectToWorld worldToObject : Transform)
    (reverseOrientation : Bool) (radius z_min z_max phi_max : Float) :
    Paraboloid :=
  let zmin := clamp (min z_min z_max) (-radius) radius
  let zmax := clamp (max z_min z_max) (-radius) radius
  { radius := radius
    z_min := zmin
    z_max := zmax
    phi_max := toRadians ops (clamp phi_max 0 360)
    data := shape_data objectToWorld (some worldToObject) reverseOrientation }

namespace Paraboloid

/-- The worldToObject transform obtained by the unwrap at the start of
intersect and intersect_p (src/src/shapes/paraboloid.rs lines 84..89 and
240..245); the default is never reached for constructor-built paraboloids. -/
def worldToObjectT (p : Paraboloid) : Transform :=
  p.data.worldToObject.getD Transform.id

/-- Quadratic paraboloid coefficients, src/src/shapes/paraboloid.rs lines
94..106 (identical text at lines 250..262): with k = z_max / radius^2, the
equation is a = k (dx^2 + dy^2), b = 2 k (dx ox + dy oy) - dz,
c = k (ox^2 + oy^2) - oz, all in EFloat arithmetic. -/
def coefficients (s : Paraboloid) (ray : Ray) (oErr dErr : Vector3) :
    EFloat × EFloat × EFloat :=
  let ox := efloat ray.o.x oErr.x
  let oy := efloat ray.o.y oErr.y
  let oz := efloat ray.o.z oErr.z
  let dx := efloat ray.d.x dErr.x
  let dy := efloat ray.d.y dErr.y
  let dz := efloat ray.d.z dErr.z
  let k := (EFloat.ofFloat s.z_max).div
    ((EFloat.ofFloat s.radius).mul (EFloat.ofFloat s.radius))
  let a := k.mul ((dx.mul dx).add (dy.mul dy))
  let b := ((EFloat.smul 2 k).mul ((dx.mul ox).add (dy.mul oy))).sub dz
  let c := (k.mul ((ox.mul ox).add (oy.mul oy))).sub oz
  (a, b, c)

/-- Differential geometry and interaction record for an accepted paraboloid
hit, src/src/shapes/paraboloid.rs lines 156..228: parametric (u, v), partial
derivatives, Weingarten terms, the propagated-interval error bound from the
EFloat ray evaluation, the object-space surface interaction and its transform
to world space. -/
def buildIntersection (ops : RealOps) (s : Paraboloid) (ray : Ray)
    (oErr dErr : Vector3) (tShapeHit : EFloat) (pHit : Point3) (phi : Float) :
    Intersection :=
  let u := phi / s.phi_max
  let v := (pHit.z - s.z_min) / (s.z_max - s.z_min)
  let dpdu := vector3 (-s.phi_max * pHit.y) (s.phi_max * pHit.x) 0
  let dpdv := Vector3.smul (s.z_max - s.z_min)
    (vector3 (pHit.x / (2 * pHit.z)) (pHit.y / (2 * pHit.z)) 1)
  let d2pduu := Vector3.smul (-s.phi_max * s.phi_max) (vector3 pHit.x pHit.y 0)
  let d2pduv := Vector3.smul ((s.z_max - s.z_min) * s.phi_max)
    (vector3 (-pHit.y / (2 * pHit.z)) (pHit.x / (2 * pHit.z)) 0)
  let d2pdvv := Vector3.smul (-(s.z_max - s.z_min) * (s.z_max - s.z_min))
    (vector3 (pHit.x / (4 * pHit.z * pHit.z)) (pHit.y / (4 * pHit.z * pHit.z)) 0)
  let n := (dpdu.cross dpdv).normalize ops
  let e1 := dpdu.dot dpdu
  let f1 := dpdu.dot dpdv
  let g1 := dpdv.dot dpdv
  let e2 := n.dot d2pduu
  let f2 := n.dot d2pduv
  let g2 := n.dot d2pdvv
  let invEGF1 := 1 / (e1 * g1 - f1 * f1)
  let dndu := Normal3.ofVector
    ((Vector3.smul ((f2 * f1 - e2 * g1) * invEGF1) dpdu).add
      (Vector3.smul ((e2 * f1 - f2 * e1) * invEGF1) dpdv))
  let dndv := Normal3.ofVector
    ((Vector3.smul ((g2 * f1 - f2 * g1) * invEGF1) dpdu).add
      (Vector3.smul ((f2 * f1 - g2 * e1) * invEGF1) dpdv))
  let px := (efloat ray.o.x oErr.x).add (tShapeHit.mul (efloat ray.d.x dErr.x))
  let py := (efloat ray.o.y oErr.y).add (tShapeHit.mul (efloat ray.d.y dErr.y))
  let pz := (efloat ray.o.z oErr.z).add (tShapeHit.mul (efloat ray.d.z dErr.z))
  let pError := vector3 px.getAbsoluteError py.getAbsoluteError
    pz.getAbsoluteError
  let si := surface_interaction ops pHit pError (point2 u v) ray.d.neg dpdu
    dpdv dndu dndv ray.time (some s.data)
  let isect := s.data.objectToWorld.transformSurfaceInteraction si
  intersection tShapeHit.v isect

/-- Ordered error-bounded roots of the paraboloid quadratic for a
world-space ray: the transform unwrap, the coefficient computation and the
quadratic solve shared verbatim by Paraboloid::intersect and
Paraboloid::intersect_p (src/src/shapes/paraboloid.rs lines 84..109 and
240..265). -/
def roots (ops : RealOps) (s : Paraboloid) (r : Ray) : Option (EFloat × EFloat) :=
  let rt := s.worldToObjectT.transformRayWithError r
  let cf := s.coefficients rt.1 rt.2.1 rt.2.2
  quadratic ops cf.1 cf.2.1 cf.2.2

/-- Paraboloid::intersect of src/src/shapes/paraboloid.rs lines 82..232:
unwrap the worldToObject transform, transform the ray to object space, solve
the quadratic, prune the roots against t_max and zero, pick the nearer valid
root, compute the hit point and phi directly from the ray evaluation (no
reprojection and no degenerate-azimuth nudge), test the clipping parameters,
retry once with the farther root, and build the full intersection record. -/
def intersect (ops : RealOps) (s : Paraboloid) (r : Ray) : Option Intersection :=
  let rt := s.worldToObjectT.transformRayWithError r
  let ray := rt.1
  match roots ops s r with
  | none => none
  | some (t0, t1) =>
    if t0.upperBound > ray.t_max ∨ t1.lowerBound ≤ 0 then none
    else
      let sel : Option EFloat :=
        if t0.lowerBound ≤ 0 then
          if t1.upperBound > ray.t_max then none else some t1
        else some t0
      match sel with
      | none => none
      | some tShapeHit =>
        let pHit := ray.at tShapeHit.v
        let phi := phiOf ops pHit
        if pHit.z < s.z_min ∨ pHit.z > s.z_max ∨ phi > s.phi_max then
          if tShapeHit.v = t1.v then none
          else if t1.upperBound > ray.t_max then none
          else
            let pHit2 := ray.at t1.v
            let phi2 := phiOf ops pHit2
            if pHit2.z < s.z_min ∨ pHit2.z > s.z_max ∨ phi2 > s.phi_max then
              none
            else some (buildIntersection ops s ray rt.2.1 rt.2.2 t1 pHit2 phi2)
        else some (buildIntersection ops s ray rt.2.1 rt.2.2 tShapeHit pHit phi)

/-- Paraboloid::intersect_p of src/src/shapes/paraboloid.rs lines 238..316:
the boolean-only repetition of the same unwrap, transform, quadratic solve,
root pruning, root selection, clipping test and farther-root retry. -/
def intersect_p (ops : RealOps) (s : Paraboloid) (r : Ray) : Bool :=
  let ray := (s.worldToObjectT.transformRayWithError r).1
  match roots ops s r with
  | none => false
  | some (t0, t1) =>
    if t0.upperBound > ray.t_max ∨ t1.lowerBound ≤ 0 then false
    else
      let sel : Option EFloat :=
        if t0.lowerBound ≤ 0 then
          if t1.upperBound > ray.t_max then none else some t1
        else some t0
      match sel with
      | none => false
      | some tShapeHit =>
        let pHit := ray.at tShapeHit.v
        let phi := phiOf ops pHit
        if pHit.z < s.z_min ∨ pHit.z > s.z_max ∨ phi > s.phi_max then
          if tShapeHit.v = t1.v then false
          else if t1.upperBound > ray.t_max then false
          else
            let pHit2 := ray.at t1.v
            let phi2 := phiOf ops pHit2
            if pHit2.z < s.z_min ∨ pHit2.z > s.z_max ∨ phi2 > s.phi_max then
              false
            else true
        else true

end Paraboloid

/-! Concrete scenario data used by the scenario theorems below. -/

/-- Rational value taken by the cross-product length in the axial unit-sphere
scenario below; the sqrt interpretation is exact at its square. -/
def nrm5 : Float := 2 * (355/113)^2 / 100000

/-- Concrete interpretation of the transcendental functions that agrees with
the real sqrt, atan2, acos and sin at every point at which the scenario
computations below evaluate them, with pi represented by the rational
355/113. -/
def testOps : RealOps where
  sqrt x := if x = 4 then 2 else if x = 1 then 1
    else if x = 1/10000000000 then 1/100000
    else if x = nrm5^2 then nrm5 else 0
  atan2 _ _ := 0
  acos x := if x = 1 then 0 else if x = -1 then 355/113
    else if x = 1/2 then 355/339 else 0
  sin _ := 0
  pi := 355/113

/-- Interpretation identical to testOps except at the degenerate point
atan2(0, 0), where it returns 1 instead of 0; the real atan2 is undefined
there, so both records are admissible interpretations. -/
def testOpsAtanAlt : RealOps :=
  { testOps with atan2 := fun y x => if y = 0 ∧ x = 0 then 1 else 0 }

/-- Full unit sphere at the origin with identity transforms and no
orientation reversal. -/
def sphereFull : Sphere := sphere testOps Transform.id Transform.id false 1 (-1) 1 360

/-- The same unit sphere clipped to z_max = 1/2 with z_min left at minus the
radius. -/
def sphereClipped : Sphere :=
  sphere testOps Transform.id Transform.id false 1 (-1) (1/2) 360

/-- Ray from (0,0,5) along (0,0,-1) with t_max = 1000. -/
def rayAxial : Ray := ⟨point3 0 0 5, vector3 0 0 (-1), 1000, 0⟩

/-- The same ray with t_max = 5, between the two quadratic roots 4 and 6. -/
def rayAxialTm5 : Ray := ⟨point3 0 0 5, vector3 0 0 (-1), 5, 0⟩

/-- The same ray with t_max = 3, short of both quadratic roots. -/
def rayAxialTm3 : Ray := ⟨point3 0 0 5, vector3 0 0 (-1), 3, 0⟩

/-- Paraboloid of radius 1 over z in [0, 1] with identity transforms. -/
def parabCup : Paraboloid :=
  paraboloid testOps Transform.id Transform.id false 1 0 1 360

/-- Ray from (-1,0,0) along (1,0,0), tangent to the paraboloid apex, with
t_max = 100. -/
def rayLateral : Ray := ⟨point3 (-1) 0 0, vector3 1 0 0, 100, 0⟩

/-- The same lateral ray with t_max = 1/2, short of the double root at 1. -/
def rayLateralTmHalf : Ray := ⟨point3 (-1) 0 0, vector3 1 0 0, 1/2, 0⟩

/-- Surface interaction whose geometric normal points along (0,0,-1), built
through the constructor with swapped partial derivatives and an attached
shape record with both orientation flags false. -/
def siDownNormal : SurfaceInteraction :=
  surface_interaction testOps (point3 0 0 0) (vector3 0 0 0) (point2 0 0)
    (vector3 0 0 1) (vector3 0 1 0) (vector3 1 0 0) (normal3 0 0 0)
    (normal3 0 0 0) 0 (some (shape_data Transform.id (some Transform.id) false))

/-- Bounds predicate of the constructor invariant: the stored z extent lies
inside [-radius, radius] and the stored phi_max inside [0, 2 pi]. -/
def withinBounds (radius zmin zmax phimax pi : Float) : Prop :=
  -radius ≤ zmin ∧ zmin ≤ zmax ∧ zmax ≤ radius ∧ 0 ≤ phimax ∧ phimax ≤ 2 * pi

/-! Small evaluation lemmas shared by the proofs. -/

theorem efloat_v (v e : Float) : (efloat v e).v = v := rfl

theorem efloat_upperBound (v e : Float) : (efloat v e).upperBound = v + e := rfl

theorem efloat_lowerBound (v e : Float) : (efloat v e).lowerBound = v - e := rfl

theorem clamp_mem (x lo hi : Float) (h : lo ≤ hi) :
    lo ≤ clamp x lo hi ∧ clamp x lo hi ≤ hi := by
  unfold clamp
  split_ifs <;> constructor <;> linarith

theorem clamp_mono (x y lo hi : Float) (h : lo ≤ hi) (hxy : x ≤ y) :
    clamp x lo hi ≤ clamp y lo hi := by
  unfold clamp
  split_ifs <;> linarith

/-- Azimuth under the base interpretation is identically zero. -/
theorem phiOf_testOps (p : Point3) : phiOf testOps p = 0 := by
  norm_num [phiOf, testOps]

/-- Roots of the sphere quadratic for the axial ray against a unit sphere
(the t_max of the ray does not enter the computation). -/
theorem roots_axial (s : Sphere) (hs : s = sphereFull ∨ s = sphereClipped)
    (tm : Float) :
    Sphere.roots testOps s ⟨point3 0 0 5, vector3 0 0 (-1), tm, 0⟩ =
      some (efloat 4 0, efloat 6 0) := by
  have hrad : s.radius = 1 := by
    rcases hs with h | h <;>
      norm_num [h, sphereFull, sphereClipped, sphere]
  have hw2o : s.worldToObjectT = Transform.id := by
    rcases hs with h | h <;>
      rw [h] <;> rfl
  have hcf : Sphere.coefficients s ⟨point3 0 0 5, vector3 0 0 (-1), tm, 0⟩
      (vector3 0 0 0) (vector3 0 0 0) =
      (efloat 1 0, efloat (-10) 0, efloat 24 0) := by
    norm_num [Sphere.coefficients, hrad, efloat, EFloat.mul, EFloat.add,
      EFloat.sub, EFloat.smul, EFloat.ofFloat, vector3, point3, min_def,
      max_def]
  have hq : quadratic testOps (efloat 1 0) (efloat (-10) 0) (efloat 24 0) =
      some (efloat 4 0, efloat 6 0) := by
    norm_num [quadratic, testOps, nrm5, efloat, EFloat.smul, EFloat.sub,
      EFloat.add, EFloat.mul, EFloat.div, EFloat.ofFloat, machineEpsilon,
      min_def, max_def]
  have hglue : Sphere.roots testOps s ⟨point3 0 0 5, vector3 0 0 (-1), tm, 0⟩ =
      quadratic testOps
        (Sphere.coefficients s
          ((s.worldToObjectT.transformRayWithError
            ⟨point3 0 0 5, vector3 0 0 (-1), tm, 0⟩).1)
          (vector3 0 0 0) (vector3 0 0 0)).1
        (Sphere.coefficients s
          ((s.worldToObjectT.transformRayWithError
            ⟨point3 0 0 5, vector3 0 0 (-1), tm, 0⟩).1)
          (vector3 0 0 0) (vector3 0 0 0)).2.1
        (Sphere.coefficients s
          ((s.worldToObjectT.transformRayWithError
            ⟨point3 0 0 5, vector3 0 0 (-1), tm, 0⟩).1)
          (vector3 0 0 0) (vector3 0 0 0)).2.2 := rfl
  rw [hglue, hw2o]
  have hrayid : (Transform.id.transformRayWithError
      ⟨point3 0 0 5, vector3 0 0 (-1), tm, 0⟩).1 =
      (⟨point3 0 0 5, vector3 0 0 (-1), tm, 0⟩ : Ray) := rfl
  rw [hrayid, hcf]
  exact hq

/-- The reprojected and nudged candidate point of the axial ray at the near
root t = 4. -/
theorem refined_axial_4 (s : Sphere) (hs : s = sphereFull ∨ s = sphereClipped)
    (tm : Float) :
    Sphere.refinedHitPoint testOps s ⟨point3 0 0 5, vector3 0 0 (-1), tm, 0⟩ 4 =
      point3 (1/100000) 0 1 := by
  have hrad : s.radius = 1 := by
    rcases hs with h | h <;>
      norm_num [h, sphereFull, sphereClipped, sphere]
  norm_num [Sphere.refinedHitPoint, Sphere.reprojected, Sphere.nudge, Ray.at,
    Point3.addV, Point3.smul, Point3.distance, Vector3.smul, point3, vector3,
    hrad, testOps, nrm5]

/-- The reprojected and nudged candidate point of the axial ray at the far
root t = 6. -/
theorem refined_axial_6 (s : Sphere) (hs : s = sphereFull ∨ s = sphereClipped)
    (tm : Float) :
    Sphere.refinedHitPoint testOps s ⟨point3 0 0 5, vector3 0 0 (-1), tm, 0⟩ 6 =
      point3 (1/100000) 0 (-1) := by
  have hrad : s.radius = 1 := by
    rcases hs with h | h <;>
      norm_num [h, sphereFull, sphereClipped, sphere]
  norm_num [Sphere.refinedHitPoint, Sphere.reprojected, Sphere.nudge, Ray.at,
    Point3.addV, Point3.smul, Point3.distance, Vector3.smul, point3, vector3,
    hrad, testOps, nrm5]

/-- Roots of the paraboloid quadratic for the lateral ray: a double root at
t = 1, for any interpretation that sends sqrt 0 to 0. -/
theorem roots_lateral (ops2 : RealOps) (hsq : ops2.sqrt 0 = 0) (tm : Float) :
    Paraboloid.roots ops2 parabCup ⟨point3 (-1) 0 0, vector3 1 0 0, tm, 0⟩ =
      some (efloat 1 0, efloat 1 0) := by
  have hcf : Paraboloid.coefficients parabCup
      ⟨point3 (-1) 0 0, vector3 1 0 0, tm, 0⟩
      (vector3 0 0 0) (vector3 0 0 0) =
      (efloat 1 0, efloat (-2) 0, efloat 1 0) := by
    norm_num [Paraboloid.coefficients, parabCup, paraboloid, clamp, min_def,
      max_def, efloat, EFloat.mul, EFloat.add, EFloat.sub, EFloat.smul,
      EFloat.ofFloat, EFloat.div, vector3, point3]
  have hq : quadratic ops2 (efloat 1 0) (efloat (-2) 0) (efloat 1 0) =
      some (efloat 1 0, efloat 1 0) := by
    norm_num [quadratic, hsq, efloat, EFloat.smul, EFloat.sub, EFloat.add,
      EFloat.mul, EFloat.div, EFloat.ofFloat, machineEpsilon, min_def, max_def]
  have hglue : Paraboloid.roots ops2 parabCup
      ⟨point3 (-1) 0 0, vector3 1 0 0, tm, 0⟩ =
      quadratic ops2
        (Paraboloid.coefficients parabCup
          ((parabCup.worldToObjectT.transformRayWithError
            ⟨point3 (-1) 0 0, vector3 1 0 0, tm, 0⟩).1)
          (vector3 0 0 0) (vector3 0 0 0)).1
        (Paraboloid.coefficients parabCup
          ((parabCup.worldToObjectT.transformRayWithError
            ⟨point3 (-1) 0 0, vector3 1 0 0, tm, 0⟩).1)
          (vector3 0 0 0) (vector3 0 0 0)).2.1
        (Paraboloid.coefficients parabCup
          ((parabCup.worldToObjectT.transformRayWithError
            ⟨point3 (-1) 0 0, vector3 1 0 0, tm, 0⟩).1)
          (vector3 0 0 0) (vector3 0 0 0)).2.2 := rfl
  have hw2o : parabCup.worldToObjectT = Transform.id := rfl
  rw [hglue, hw2o]
  have hrayid : (Transform.id.transformRayWithError
      ⟨point3 (-1) 0 0, vector3 1 0 0, tm, 0⟩).1 =
      (⟨point3 (-1) 0 0, vector3 1 0 0, tm, 0⟩ : Ray) := rfl
  rw [hrayid, hcf]
  exact hq

/-- Full evaluation of Sphere::intersect for the axial ray against the full
unit sphere: the near root 4 is selected and accepted. -/
theorem intersect_axial_full :
    Sphere.intersect testOps sphereFull rayAxial =
      some (Sphere.buildIntersection testOps sphereFull
        ⟨point3 0 0 5, vector3 0 0 (-1), 1000, 0⟩ (efloat 4 0)
        (point3 (1/100000) 0 1) 0) := by
  unfold Sphere.intersect
  simp only [rayAxial]
  have hray : (sphereFull.worldToObjectT.transformRayWithError
      ⟨point3 0 0 5, vector3 0 0 (-1), 1000, 0⟩).1 =
      (⟨point3 0 0 5, vector3 0 0 (-1), 1000, 0⟩ : Ray) := rfl
  simp only [hray, roots_axial sphereFull (Or.inl rfl) 1000]
  rw [if_neg (by norm_num [efloat_upperBound, efloat_lowerBound])]
  rw [if_neg (by norm_num [efloat_lowerBound])]
  dsimp only
  simp only [efloat_v, refined_axial_4 sphereFull (Or.inl rfl) 1000,
    phiOf_testOps]
  rw [if_neg (by norm_num [sphereFull, sphere, clamp, toRadians, testOps,
    min_def, max_def, point3])]

/-- Full evaluation of Sphere::intersect for the axial ray against the
sphere clipped to z_max = 1/2: the near root 4 is rejected by the z_max clip
and the retry accepts the farther root 6 at z = -1. -/
theorem intersect_axial_clipped :
    Sphere.intersect testOps sphereClipped rayAxial =
      some (Sphere.buildIntersection testOps sphereClipped
        ⟨point3 0 0 5, vector3 0 0 (-1), 1000, 0⟩ (efloat 6 0)
        (point3 (1/100000) 0 (-1)) 0) := by
  unfold Sphere.intersect
  simp only [rayAxial]
  have hray : (sphereClipped.worldToObjectT.transformRayWithError
      ⟨point3 0 0 5, vector3 0 0 (-1), 1000, 0⟩).1 =
      (⟨point3 0 0 5, vector3 0 0 (-1), 1000, 0⟩ : Ray) := rfl
  simp only [hray, roots_axial sphereClipped (Or.inr rfl) 1000]
  rw [if_neg (by norm_num [efloat_upperBound, efloat_lowerBound])]
  rw [if_neg (by norm_num [efloat_lowerBound])]
  dsimp only
  simp only [efloat_v, refined_axial_4 sphereClipped (Or.inr rfl) 1000,
    refined_axial_6 sphereClipped (Or.inr rfl) 1000, phiOf_testOps]
  rw [if_pos (by norm_num [sphereClipped, sphere, clamp, toRadians, testOps,
    min_def, max_def, point3])]
  rw [if_neg (by norm_num [efloat_v])]
  rw [if_neg (by norm_num [efloat_upperBound])]
  rw [if_neg (by norm_num [sphereClipped, sphere, clamp, toRadians, testOps,
    min_def, max_def, point3])]

/-- Full evaluation of Sphere::intersect_p for the axial ray with t_max = 5:
the near root 4 is a valid hit even though the farther root 6 exceeds
t_max. -/
theorem intersect_p_axial_tm5 :
    Sphere.intersect_p testOps sphereFull rayAxialTm5 = true := by
  unfold Sphere.intersect_p
  simp only [rayAxialTm5]
  have hray : (sphereFull.worldToObjectT.transformRayWithError
      ⟨point3 0 0 5, vector3 0 0 (-1), 5, 0⟩).1 =
      (⟨point3 0 0 5, vector3 0 0 (-1), 5, 0⟩ : Ray) := rfl
  simp only [hray, roots_axial sphereFull (Or.inl rfl) 5]
  rw [if_neg (by norm_num [efloat_upperBound, efloat_lowerBound])]
  rw [if_neg (by norm_num [efloat_lowerBound])]
  dsimp only
  simp only [efloat_v, refined_axial_4 sphereFull (Or.inl rfl) 5,
    phiOf_testOps]
  rw [if_neg (by norm_num [sphereFull, sphere, clamp, toRadians, testOps,
    min_def, max_def, point3])]

/-- Full evaluation of Paraboloid::intersect for the lateral ray under the
base interpretation: the double root 1 hits the apex (0,0,0) and phi is
atan2(0,0) = 0. -/
theorem intersect_lateral_base :
    Paraboloid.intersect testOps parabCup rayLateral =
      some (Paraboloid.buildIntersection testOps parabCup
        ⟨point3 (-1) 0 0, vector3 1 0 0, 100, 0⟩ (vector3 0 0 0)
        (vector3 0 0 0) (efloat 1 0) (point3 0 0 0) 0) := by
  unfold Paraboloid.intersect
  simp only [rayLateral]
  have hray : (parabCup.worldToObjectT.transformRayWithError
      ⟨point3 (-1) 0 0, vector3 1 0 0, 100, 0⟩).1 =
      (⟨point3 (-1) 0 0, vector3 1 0 0, 100, 0⟩ : Ray) := rfl
  have herr1 : (parabCup.worldToObjectT.transformRayWithError
      ⟨point3 (-1) 0 0, vector3 1 0 0, 100, 0⟩).2.1 = vector3 0 0 0 := rfl
  have herr2 : (parabCup.worldToObjectT.transformRayWithError
      ⟨point3 (-1) 0 0, vector3 1 0 0, 100, 0⟩).2.2 = vector3 0 0 0 := rfl
  simp only [hray, herr1, herr2,
    roots_lateral testOps (by norm_num [testOps, nrm5]) 100]
  rw [if_neg (by norm_num [efloat_upperBound, efloat_lowerBound])]
  rw [if_neg (by norm_num [efloat_lowerBound])]
  dsimp only
  have hat : (⟨point3 (-1) 0 0, vector3 1 0 0, 100, 0⟩ : Ray).at 1 =
      point3 0 0 0 := by
    norm_num [Ray.at, Point3.addV, Vector3.smul, point3, vector3]
  simp only [efloat_v, hat, phiOf_testOps]
  rw [if_neg (by norm_num [parabCup, paraboloid, clamp, toRadians, testOps,
    min_def, max_def, point3])]

/-- Full evaluation of Paraboloid::intersect for the lateral ray under the
alternative interpretation differing from the base one only at atan2(0,0):
the accepted hit now carries phi = atan2(0,0) = 1. -/
theorem intersect_lateral_alt :
    Paraboloid.intersect testOpsAtanAlt parabCup rayLateral =
      some (Paraboloid.buildIntersection testOpsAtanAlt parabCup
        ⟨point3 (-1) 0 0, vector3 1 0 0, 100, 0⟩ (vector3 0 0 0)
        (vector3 0 0 0) (efloat 1 0) (point3 0 0 0) 1) := by
  unfold Paraboloid.intersect
  simp only [rayLateral]
  have hray : (parabCup.worldToObjectT.transformRayWithError
      ⟨point3 (-1) 0 0, vector3 1 0 0, 100, 0⟩).1 =
      (⟨point3 (-1) 0 0, vector3 1 0 0, 100, 0⟩ : Ray) := rfl
  have herr1 : (parabCup.worldToObjectT.transformRayWithError
      ⟨point3 (-1) 0 0, vector3 1 0 0, 100, 0⟩).2.1 = vector3 0 0 0 := rfl
  have herr2 : (parabCup.worldToObjectT.transformRayWithError
      ⟨point3 (-1) 0 0, vector3 1 0 0, 100, 0⟩).2.2 = vector3 0 0 0 := rfl
  simp only [hray, herr1, herr2,
    roots_lateral testOpsAtanAlt (by norm_num [testOpsAtanAlt, testOps, nrm5]) 100]
  rw [if_neg (by norm_num [efloat_upperBound, efloat_lowerBound])]
  rw [if_neg (by norm_num [efloat_lowerBound])]
  dsimp only
  have hat : (⟨point3 (-1) 0 0, vector3 1 0 0, 100, 0⟩ : Ray).at 1 =
      point3 0 0 0 := by
    norm_num [Ray.at, Point3.addV, Vector3.smul, point3, vector3]
  have hphi : phiOf testOpsAtanAlt (point3 0 0 0) = 1 := by
    norm_num [phiOf, testOpsAtanAlt, testOps, twoPi, point3]
  simp only [efloat_v, hat, hphi]
  rw [if_neg (by norm_num [parabCup, paraboloid, clamp, toRadians, testOps,
    min_def, max_def, point3])]

/-! Claim theorems. -/

/-- C1: for every ray and every shape (Sphere or Paraboloid), the boolean
query agrees exactly with the full intersection query: intersect is some
precisely when intersect_p is true, including the cases decided by the retry
with the farther quadratic root after a clipping rejection. -/
theorem intersect_agrees_with_intersect_p :
    (∀ (ops : RealOps) (s : Sphere) (r : Ray),
      (Sphere.intersect ops s r).isSome = Sphere.intersect_p ops s r) ∧
    (∀ (ops : RealOps) (s : Paraboloid) (r : Ray),
      (Paraboloid.intersect ops s r).isSome = Paraboloid.intersect_p ops s r) := by
  constructor
  · intro ops s r
    unfold Sphere.intersect Sphere.intersect_p
    cases hq : Sphere.roots ops s r with
    | none => simp [hq]
    | some tp =>
      obtain ⟨t0, t1⟩ := tp
      simp only [hq]
      split_ifs <;>
        first
          | rfl
          | (dsimp only; split_ifs <;> rfl)
  · intro ops s r
    unfold Paraboloid.intersect Paraboloid.intersect_p
    cases hq : Paraboloid.roots ops s r with
    | none => simp [hq]
    | some tp =>
      obtain ⟨t0, t1⟩ := tp
      simp only [hq]
      split_ifs <;>
        first
          | rfl
          | (dsimp only; split_ifs <;> rfl)

/-- C6: for every surface interaction constructed with an attached shape, the
stored geometric normal is the normalized cross product of dpdu and dpdv,
negated exactly when reverse_orientation XOR transform_swaps_handedness of
the shape record holds, and the initial shading normal equals the geometric
normal. -/
theorem surface_interaction_normal_flip_rule :
    ∀ (ops : RealOps) (p : Point3) (pe : Vector3) (uv : Point2)
      (wo dpdu dpdv : Vector3) (dndu dndv : Normal3) (time : Float)
      (sd : ShapeData),
      (surface_interaction ops p pe uv wo dpdu dpdv dndu dndv time
          (some sd)).hit.n =
        (if xor sd.reverseOrientation sd.transformSwapsHandedness
          then (Normal3.ofVector ((dpdu.cross dpdv).normalize ops)).smul (-1)
          else Normal3.ofVector ((dpdu.cross dpdv).normalize ops)) ∧
      (surface_interaction ops p pe uv wo dpdu dpdv dndu dndv time
          (some sd)).shading.n =
        (surface_interaction ops p pe uv wo dpdu dpdv dndu dndv time
          (some sd)).hit.n := by
  intro ops p pe uv wo dpdu dpdv dndu dndv time sd
  exact ⟨rfl, rfl⟩

/-- C9: every paraboloid built by the public constructor stores its
worldToObject transform as present (some), so the unwrap of that optional
transform at the start of intersect and intersect_p reads exactly the
transform supplied at construction and can never fail. -/
theorem paraboloid_world_to_object_present :
    ∀ (ops : RealOps) (o2w w2o : Transform) (ro : Bool)
      (radius z0 z1 pm : Float),
      (paraboloid ops o2w w2o ro radius z0 z1 pm).data.worldToObject = some w2o ∧
      (paraboloid ops o2w w2o ro radius z0 z1 pm).worldToObjectT = w2o := by
  intro ops o2w w2o ro radius z0 z1 pm
  exact ⟨rfl, rfl⟩

/-- C8: the area of the full unit sphere is 4 pi, the area of the
hemispherical clip with z_min = 0 is 2 pi, and in general area returns
phi_max times radius times the stored z extent. -/
theorem sphere_area_values :
    (∀ (ops : RealOps) (o2w w2o : Transform) (ro : Bool),
      (sphere ops o2w w2o ro 1 (-1) 1 360).area = 4 * ops.pi) ∧
    (∀ (ops : RealOps) (o2w w2o : Transform) (ro : Bool),
      (sphere ops o2w w2o ro 1 0 1 360).area = 2 * ops.pi) ∧
    (∀ (ops : RealOps) (o2w w2o : Transform) (ro : Bool)
      (radius z0 z1 pm : Float),
      (sphere ops o2w w2o ro radius z0 z1 pm).area =
        (sphere ops o2w w2o ro radius z0 z1 pm).phi_max *
          (sphere ops o2w w2o ro radius z0 z1 pm).radius *
          ((sphere ops o2w w2o ro radius z0 z1 pm).z_max -
            (sphere ops o2w w2o ro radius z0 z1 pm).z_min)) := by
  refine ⟨?_, ?_, ?_⟩
  · intro ops o2w w2o ro
    norm_num [sphere, Sphere.area, clamp, toRadians, min_def, max_def]
    ring
  · intro ops o2w w2o ro
    norm_num [sphere, Sphere.area, clamp, toRadians, min_def, max_def]
    ring
  · intro ops o2w w2o ro radius z0 z1 pm
    rfl

/-- C2 (failing-input evaluation): when the effective orientation-flip flag
reverse_orientation XOR transform_swaps_handedness is false, the source
applies no face-forward correction in update_shading_geometry, so replacement
shading geometry whose cross product opposes the geometric normal yields a
returned shading normal in the opposite hemisphere: the dot product is -1,
not positive, violating the hemisphere invariant asserted in
GeometricPrimitive::intersect. -/
theorem update_shading_geometry_hemisphere_violation :
    siDownNormal.hit.n = normal3 0 0 (-1) ∧
    ((siDownNormal.update_shading_geometry testOps (vector3 1 0 0)
        (vector3 0 1 0) (normal3 0 0 0) (normal3 0 0 0) false).2.n).dotn
      siDownNormal.hit.n = -1 := by
  constructor
  · norm_num [siDownNormal, surface_interaction, shape_data, Transform.id,
      Vector3.cross, Vector3.normalize, Vector3.lengthSquared, Vector3.length,
      Vector3.smul, Normal3.ofVector, testOps, hit, shading, vector3, normal3,
      point3]
  · norm_num [siDownNormal, surface_interaction, shape_data, Transform.id,
      SurfaceInteraction.update_shading_geometry, Normal3.faceForward,
      Normal3.dotn, Normal3.dotv, Normal3.smul, Normal3.toVector,
      Normal3.normalize, Normal3.lengthSquared, Normal3.ofVector, Normal3.neg,
      Vector3.cross, Vector3.normalize, Vector3.lengthSquared, Vector3.length,
      Vector3.smul, testOps, hit, shading, vector3, normal3, point3]

/-- C3 (counterexample): for the axial ray with t_max = 5 against the full
unit sphere, the farther root satisfies the condition of the claim (its lower
bound 6 exceeds t_max = 5, while the nearer root is not behind the origin),
yet an intersection IS reported, because the source compares the upper bound
of the nearer root with t_max, not the lower bound of the farther root. -/
theorem prune_condition_swapped_counterexample :
    Sphere.roots testOps sphereFull rayAxialTm5 =
      some (efloat 4 0, efloat 6 0) ∧
    (efloat 6 0).lowerBound > rayAxialTm5.t_max ∧
    ¬((efloat 4 0).upperBound ≤ 0) ∧
    Sphere.intersect_p testOps sphereFull rayAxialTm5 = true := by
  refine ⟨roots_axial sphereFull (Or.inl rfl) 5, ?_, ?_, intersect_p_axial_tm5⟩
  · norm_num [efloat_lowerBound, rayAxialTm5]
  · norm_num [efloat_upperBound]

/-- C3 (amended): in all four quadric routines, both roots are rejected at
the pruning step - no intersection is reported - whenever the nearer root t0
has upper bound exceeding the t_max of the ray, or the farther root t1 has
lower bound at most 0. -/
theorem prune_rejects_both_roots :
    (∀ (ops : RealOps) (s : Sphere) (r : Ray) (t0 t1 : EFloat),
      Sphere.roots ops s r = some (t0, t1) →
      t0.upperBound > r.t_max ∨ t1.lowerBound ≤ 0 →
      Sphere.intersect ops s r = none ∧ Sphere.intersect_p ops s r = false) ∧
    (∀ (ops : RealOps) (s : Paraboloid) (r : Ray) (t0 t1 : EFloat),
      Paraboloid.roots ops s r = some (t0, t1) →
      t0.upperBound > r.t_max ∨ t1.lowerBound ≤ 0 →
      Paraboloid.intersect ops s r = none ∧
        Paraboloid.intersect_p ops s r = false) := by
  constructor
  · intro ops s r t0 t1 h hcond
    have hcond2 : t0.upperBound >
        (s.worldToObjectT.transformRayWithError r).1.t_max ∨
        t1.lowerBound ≤ 0 := hcond
    unfold Sphere.intersect Sphere.intersect_p
    simp only [h]
    exact ⟨if_pos hcond2, if_pos hcond2⟩
  · intro ops s r t0 t1 h hcond
    have hcond2 : t0.upperBound >
        (s.worldToObjectT.transformRayWithError r).1.t_max ∨
        t1.lowerBound ≤ 0 := hcond
    unfold Paraboloid.intersect Paraboloid.intersect_p
    simp only [h]
    exact ⟨if_pos hcond2, if_pos hcond2⟩

/-- Witness for the amended C3 theorem: concrete sphere and paraboloid rays
whose roots satisfy the pruning condition and are rejected by both
queries. -/
theorem prune_rejects_both_roots_witness :
    (Sphere.roots testOps sphereFull rayAxialTm3 =
        some (efloat 4 0, efloat 6 0) ∧
      ((efloat 4 0).upperBound > rayAxialTm3.t_max ∨
        (efloat 6 0).lowerBound ≤ 0) ∧
      Sphere.intersect testOps sphereFull rayAxialTm3 = none ∧
      Sphere.intersect_p testOps sphereFull rayAxialTm3 = false) ∧
    (Paraboloid.roots testOps parabCup rayLateralTmHalf =
        some (efloat 1 0, efloat 1 0) ∧
      ((efloat 1 0).upperBound > rayLateralTmHalf.t_max ∨
        (efloat 1 0).lowerBound ≤ 0) ∧
      Paraboloid.intersect testOps parabCup rayLateralTmHalf = none ∧
      Paraboloid.intersect_p testOps parabCup rayLateralTmHalf = false) := by
  have h1 : Sphere.roots testOps sphereFull rayAxialTm3 =
      some (efloat 4 0, efloat 6 0) := roots_axial sphereFull (Or.inl rfl) 3
  have hc1 : (efloat 4 0).upperBound > rayAxialTm3.t_max ∨
      (efloat 6 0).lowerBound ≤ 0 := by
    norm_num [efloat_upperBound, rayAxialTm3]
  have h2 : Paraboloid.roots testOps parabCup rayLateralTmHalf =
      some (efloat 1 0, efloat 1 0) :=
    roots_lateral testOps (by norm_num [testOps, nrm5]) (1/2)
  have hc2 : (efloat 1 0).upperBound > rayLateralTmHalf.t_max ∨
      (efloat 1 0).lowerBound ≤ 0 := by
    norm_num [efloat_upperBound, rayLateralTmHalf]
  have m1 := prune_rejects_both_roots.1 testOps sphereFull rayAxialTm3
    (efloat 4 0) (efloat 6 0) h1 hc1
  have m2 := prune_rejects_both_roots.2 testOps parabCup rayLateralTmHalf
    (efloat 1 0) (efloat 1 0) h2 hc2
  exact ⟨⟨h1, hc1, m1.1, m1.2⟩, ⟨h2, hc2, m2.1, m2.2⟩⟩

/-- C4 (counterexample): against the sphere clipped to z_max = 1/2 the axial
ray DOES intersect - the claim that no intersection is returned is false,
because z_min = -radius leaves the lower clip disabled and the farther root
at z = -1 is accepted by the retry. -/
theorem clipped_sphere_reports_hit :
    (Sphere.intersect testOps sphereClipped rayAxial).isSome = true := by
  rw [intersect_axial_clipped]
  rfl

/-- C4 (amended): for the axial ray against the sphere clipped to
z_max = 1/2, the near root at z = 1 is rejected by the z_max clip, and the
retry accepts the farther root: the reported hit has t = 6 and (nudged)
position (1e-5, 0, -1). -/
theorem clipped_sphere_far_root_accepted :
    (Sphere.intersect testOps sphereClipped rayAxial).map
      (fun i => (i.t, i.isect.hit.p)) =
      some (6, point3 (1/100000) 0 (-1)) := by
  rw [intersect_axial_clipped]
  dsimp only [Option.map, Sphere.buildIntersection, intersection,
    Transform.transformSurfaceInteraction, surface_interaction, hit,
    Transform.id, shape_data, sphereClipped, sphere, efloat]

/-- C5 (counterexample): the reported hit position for the axial ray against
the full unit sphere is the nudged point (1e-5, 0, 1), not (0, 0, 1) as the
claim states, because the candidate hit has x = y = 0 and the
degenerate-azimuth nudge moves x to 1e-5 times the radius before the
interaction is built. -/
theorem axial_hit_position_nudged :
    (Sphere.intersect testOps sphereFull rayAxial).map
      (fun i => i.isect.hit.p) = some (point3 (1/100000) 0 1) ∧
    point3 (1/100000) 0 1 ≠ point3 0 0 1 := by
  constructor
  · rw [intersect_axial_full]
    dsimp only [Option.map, Sphere.buildIntersection, intersection,
      Transform.transformSurfaceInteraction, surface_interaction, hit,
      Transform.id, shape_data, sphereFull, sphere, efloat]
  · norm_num [point3, Point3.mk.injEq]

/-- C5 (amended): for the axial ray against the full unit sphere, the
reported hit has t = 4, position equal to the nudged point
(1e-5 radius, 0, 1), and geometric normal (0, 0, 1). -/
theorem axial_unit_sphere_hit :
    (Sphere.intersect testOps sphereFull rayAxial).map
      (fun i => (i.t, i.isect.hit.p, i.isect.hit.n)) =
      some (4, point3 (1/100000) 0 1, normal3 0 0 1) := by
  rw [intersect_axial_full]
  dsimp only [Option.map, Sphere.buildIntersection, intersection,
    Transform.transformSurfaceInteraction, surface_interaction, hit,
    Transform.id, shape_data, sphereFull, sphere, efloat]
  norm_num [Normal3.ofVector, Normal3.smul, Vector3.cross, Vector3.normalize,
    Vector3.lengthSquared, Vector3.length, Vector3.smul, vector3, normal3,
    point3, clamp, toRadians, testOps, nrm5, min_def, max_def,
    Prod.mk.injEq, Normal3.mk.injEq, Point3.mk.injEq]

/-- C7 (counterexample): in Paraboloid::intersect the candidate hit point of
the lateral ray is the apex (0, 0, 0), with both in-plane coordinates zero,
and no nudge is applied: the reported u coordinate is
atan2(0,0) / phi_max, so it changes when the interpretation of atan2 is
changed only at (0,0) - from u = 0 to u = 113/710 - while the nudged
computation atan2(0, 1e-5 radius) would give 0 under both
interpretations. -/
theorem paraboloid_no_nudge_counterexample :
    (parabCup.worldToObjectT.transformRayWithError rayLateral).1.at 1 =
      point3 0 0 0 ∧
    (Paraboloid.intersect testOps parabCup rayLateral).map
      (fun i => i.isect.uv.x) = some 0 ∧
    (Paraboloid.intersect testOpsAtanAlt parabCup rayLateral).map
      (fun i => i.isect.uv.x) = some (113/710) ∧
    testOpsAtanAlt.atan2 0 ((1/100000) * parabCup.radius) = 0 := by
  refine ⟨?_, ?_, ?_, ?_⟩
  · norm_num [Ray.at, Point3.addV, Vector3.smul, point3, vector3, rayLateral,
      parabCup, paraboloid, Paraboloid.worldToObjectT, shape_data,
      Transform.transformRayWithError, Transform.id, clamp, toRadians,
      testOps, min_def, max_def]
  · rw [intersect_lateral_base]
    dsimp only [Option.map, Paraboloid.buildIntersection, intersection,
      Transform.transformSurfaceInteraction, surface_interaction, hit,
      shading, Transform.id, shape_data, parabCup, paraboloid, point2, efloat]
    norm_num [parabCup, paraboloid, clamp, toRadians, testOps, min_def,
      max_def]
  · rw [intersect_lateral_alt]
    dsimp only [Option.map, Paraboloid.buildIntersection, intersection,
      Transform.transformSurfaceInteraction, surface_interaction, hit,
      shading, Transform.id, shape_data, parabCup, paraboloid, point2, efloat]
    norm_num [parabCup, paraboloid, clamp, toRadians, testOps, min_def,
      max_def]
  · norm_num [testOpsAtanAlt, parabCup, paraboloid, clamp, min_def, max_def]

/-- C7 (amended): in the sphere routines the degenerate-azimuth nudge does
happen: whenever the reprojected candidate point has x = 0 and y = 0, the
point fed to the phi computation is that point with x replaced by 1e-5 times
the radius, and (for a sphere of nonzero radius) the point fed to atan2 never
has both in-plane coordinates zero. -/
theorem sphere_degenerate_azimuth_nudged :
    ∀ (ops : RealOps) (s : Sphere) (ray : Ray) (t : Float),
      s.radius ≠ 0 →
      ((Sphere.reprojected ops s ray t).x = 0 ∧
          (Sphere.reprojected ops s ray t).y = 0 →
        Sphere.refinedHitPoint ops s ray t =
          { Sphere.reprojected ops s ray t with x := (1/100000) * s.radius }) ∧
      ¬((Sphere.refinedHitPoint ops s ray t).x = 0 ∧
        (Sphere.refinedHitPoint ops s ray t).y = 0) := by
  intro ops s ray t hr
  constructor
  · intro h
    unfold Sphere.refinedHitPoint Sphere.nudge
    rw [if_pos h]
  · intro hcon
    unfold Sphere.refinedHitPoint Sphere.nudge at hcon
    by_cases h : (Sphere.reprojected ops s ray t).x = 0 ∧
        (Sphere.reprojected ops s ray t).y = 0
    · rw [if_pos h] at hcon
      have hx : (1/100000 : Float) * s.radius = 0 := hcon.1
      rcases mul_eq_zero.mp hx with h0 | h0
      · norm_num at h0
      · exact hr h0
    · rw [if_neg h] at hcon
      exact h hcon

/-- Witness for the amended C7 theorem: the axial unit-sphere candidate at
t = 4 reprojects to (0, 0, 1), the nudge fires and moves x to 1e-5. -/
theorem sphere_degenerate_azimuth_nudged_witness :
    sphereFull.radius ≠ 0 ∧
    Sphere.refinedHitPoint testOps sphereFull rayAxial 4 =
      { Sphere.reprojected testOps sphereFull rayAxial 4 with
          x := (1/100000) * sphereFull.radius } ∧
    ¬((Sphere.refinedHitPoint testOps sphereFull rayAxial 4).x = 0 ∧
      (Sphere.refinedHitPoint testOps sphereFull rayAxial 4).y = 0) := by
  have hr : sphereFull.radius ≠ 0 := by
    norm_num [sphereFull, sphere]
  have hrep : (Sphere.reprojected testOps sphereFull rayAxial 4).x = 0 ∧
      (Sphere.reprojected testOps sphereFull rayAxial 4).y = 0 := by
    norm_num [Sphere.reprojected, Ray.at, Point3.addV, Point3.smul,
      Point3.distance, Vector3.smul, point3, vector3, rayAxial, sphereFull,
      sphere, clamp, min_def, max_def, testOps, nrm5]
  have m := sphere_degenerate_azimuth_nudged testOps sphereFull rayAxial 4 hr
  exact ⟨hr, m.1 hrep, m.2⟩

/-- C10 (counterexample): for a negative radius the clamp bounds are
inverted and the stored z_max can exceed the radius: the sphere constructor
with radius -1 and both z arguments 0 stores z_max = 1 > -1 = radius. -/
theorem negative_radius_clamp_counterexample :
    (sphere testOps Transform.id Transform.id false (-1) 0 0 360).z_max = 1 ∧
    (sphere testOps Transform.id Transform.id false (-1) 0 0 360).radius = -1 ∧
    ¬((sphere testOps Transform.id Transform.id false (-1) 0 0 360).z_max ≤
      (sphere testOps Transform.id Transform.id false (-1) 0 0 360).radius) := by
  refine ⟨?_, ?_, ?_⟩ <;> norm_num [sphere, clamp, min_def, max_def]

/-- C10 (amended): for a nonnegative radius (and the nonnegative constant
pi), every sphere and every paraboloid returned by the public constructors,
for every ordering of the z arguments, stores fields with
-radius <= z_min <= z_max <= radius and 0 <= phi_max <= 2 pi. -/
theorem constructor_bounds_invariant :
    ∀ (ops : RealOps) (o2w w2o : Transform) (ro : Bool)
      (radius z0 z1 pm : Float),
      0 ≤ radius → 0 ≤ ops.pi →
      withinBounds radius (sphere ops o2w w2o ro radius z0 z1 pm).z_min
        (sphere ops o2w w2o ro radius z0 z1 pm).z_max
        (sphere ops o2w w2o ro radius z0 z1 pm).phi_max ops.pi ∧
      withinBounds radius (paraboloid ops o2w w2o ro radius z0 z1 pm).z_min
        (paraboloid ops o2w w2o ro radius z0 z1 pm).z_max
        (paraboloid ops o2w w2o ro radius z0 z1 pm).phi_max ops.pi := by
  intro ops o2w w2o ro radius z0 z1 pm hrad hpi
  have hlh : -radius ≤ radius := by linarith
  have h1 := clamp_mem (min z0 z1) (-radius) radius hlh
  have h2 := clamp_mem (max z0 z1) (-radius) radius hlh
  have h3 := clamp_mono (min z0 z1) (max z0 z1) (-radius) radius hlh
    (min_le_max)
  have hc := clamp_mem pm 0 360 (by norm_num)
  have hp1 : 0 ≤ toRadians ops (clamp pm 0 360) := by
    unfold toRadians
    have := mul_nonneg hc.1 hpi
    positivity
  have hp2 : toRadians ops (clamp pm 0 360) ≤ 2 * ops.pi := by
    unfold toRadians
    rw [div_le_iff₀ (by norm_num : (0:Float) < 180)]
    nlinarith [mul_le_mul_of_nonneg_right hc.2 hpi]
  exact ⟨⟨h1.1, h3, h2.2, hp1, hp2⟩, ⟨h1.1, h3, h2.2, hp1, hp2⟩⟩

/-- Witness for the amended C10 theorem: a concrete sphere and paraboloid
with radius 1, z arguments given in reversed order and phi_max 720 degrees
satisfy the stored-field bounds. -/
theorem constructor_bounds_invariant_witness :
    (0:Float) ≤ 1 ∧ 0 ≤ testOps.pi ∧
    (withinBounds 1 (sphere testOps Transform.id Transform.id false 1 2 (-2) 720).z_min
        (sphere testOps Transform.id Transform.id false 1 2 (-2) 720).z_max
        (sphere testOps Transform.id Transform.id false 1 2 (-2) 720).phi_max
        testOps.pi ∧
      withinBounds 1
        (paraboloid testOps Transform.id Transform.id false 1 2 (-2) 720).z_min
        (paraboloid testOps Transform.id Transform.id false 1 2 (-2) 720).z_max
        (paraboloid testOps Transform.id Transform.id false 1 2 (-2) 720).phi_max
        testOps.pi) := by
  have ha : (0:Float) ≤ 1 := by norm_num
  have hb : (0:Float) ≤ testOps.pi := by norm_num [testOps]
  exact ⟨ha, hb, constructor_bounds_invariant testOps Transform.id
    Transform.id false 1 2 (-2) 720 ha hb⟩

end Pbrt
